import Mathlib

/-!
Verification development for the TourRAG query-serving pipeline.

This file is a shallow embedding, in Lean 4, of the parts of the TourRAG
repository that the checked properties talk about:

* the tag schema registry (`src/app/services/tag_manager.py`),
* the SQL search tool (`src/app/tools/sql_search_tool.py`),
* the enrichment service (`src/app/services/enrichment.py`),
* the ranking / fusion layer (`src/app/services/llm_service.py`),
* the agent loop (`src/app/services/agent_service.py`), and
* the server-side fallback of the request mediator (`src/app/main.py`).

External collaborators (the PostgreSQL database and the outbound LLM) are
modelled as oracles: structures of functions giving, for each fixed query
shape, the rows the database would return, and the raw text the LLM would
produce.  Python exceptions are modelled with `Except`; Python `float`
scores are modelled with `ℚ`; dynamic (duck-typed) values that matter are
modelled with an explicit `PyVal` sum type.
-/

namespace TourRAG

/-! ### Python-level basics -/

/-- The Python exceptions that appear on the control paths we model. -/
inductive PyErr : Type where
  | valueError (msg : String)
  | typeError
  | attributeError
  | dbError (msg : String)
  deriving DecidableEq, Repr

/-- A dynamically typed Python value, for the call sites where an argument
of unexpected type flows into a function (`search_by_category`'s `country`
parameter). -/
inductive PyVal : Type where
  | str (s : String)
  | int (n : Int)
  | none'
  deriving DecidableEq, Repr

/-- Python truthiness for the `PyVal` fragment we use: `None` and empty
strings and `0` are falsy. -/
def PyVal.truthy : PyVal → Bool
  | .str s => s ≠ ""
  | .int n => n ≠ 0
  | .none' => false

/-- Truthiness of an optional string (`if country:` on a `str | None`). -/
def truthyOptStr : Option String → Bool
  | some s => s ≠ ""
  | none => false

/-- Python whitespace for `str.strip()` (the characters that occur in the
strings this system handles). -/
def isPyWs (c : Char) : Bool :=
  c = ' ' ∨ c = '\t' ∨ c = '\n' ∨ c = '\r'

/-- `str.strip()` on a character list. -/
def stripChars (l : List Char) : List Char :=
  ((l.dropWhile isPyWs).reverse.dropWhile isPyWs).reverse

/-- `str.strip()`. -/
def pyStrip (s : String) : String :=
  ⟨stripChars s.data⟩

/-- `str.upper()` (the strings involved are ASCII SQL text). -/
def pyUpper (s : String) : String :=
  ⟨s.data.map Char.toUpper⟩

/-- Substring containment on character lists, as Python's `in` operator
computes it: scan left to right for a position where the pattern is a
prefix. -/
def listContainsSub (hay pat : List Char) : Bool :=
  match hay with
  | [] => pat.isEmpty
  | _ :: t => pat.isPrefixOf hay || listContainsSub t pat

/-- Python `pat in hay` for strings. -/
def pyContains (hay pat : String) : Bool :=
  listContainsSub hay.data pat.data

/-- Python `s.startswith(p)`. -/
def pyStartsWith (s p : String) : Bool :=
  p.data.isPrefixOf s.data

/-- Count of non-overlapping occurrences of `"%s"` in a character list,
as Python's `sql.count('%s')` computes it. -/
def countPS : List Char → Nat
  | '%' :: 's' :: rest => countPS rest + 1
  | _ :: rest => countPS rest
  | [] => 0

/-- `sql.count('%s')`. -/
def countPlaceholders (s : String) : Nat :=
  countPS s.data

/-! ### Tag Schema Registry (`src/app/services/tag_manager.py`)

The schema JSON document (`config/tags/tag_schema_<version>.json`) is not
part of the source tree we were given; per the specification (§4.1, §3) it
holds four disjoint tag sets — categories, visual tags, scene tags and
countries — each a JSON object mapping a tag to its description.
`TagSchema` below is modelled from the spec in that respect; everything
that *reads* the schema is translated from `tag_manager.py`. -/

/-- Modelled from the spec: the loaded tag-schema JSON document, which the
source reads by key (`self.schema.get("categories", {})`, …).  The spec's
§4.1 lists four disjoint sets: categories, visual tags, scene tags and
countries.  Each set is a JSON object, modelled as an association list
from tag to description (Python dicts preserve insertion order). -/
structure TagSchema : Type where
  categories : List (String × String)
  visual_tags : List (String × String)
  scene_tags : List (String × String)
  countries : List (String × String)
  deriving DecidableEq, Repr

/-- `TagManager.get_all_tags`: the keys of `categories`, then
`visual_tags`, then `scene_tags`.  (The source never reads a `countries`
key here.) -/
def get_all_tags (schema : TagSchema) : List String :=
  (schema.categories.map Prod.fst) ++ (schema.visual_tags.map Prod.fst)
    ++ (schema.scene_tags.map Prod.fst)

/-- `TagManager.validate_tags`: split the input into the tags belonging to
`set(get_all_tags())` and the rest, both in input order. -/
def validate_tags (schema : TagSchema) (tags : List String) :
    List String × List String :=
  (tags.filter (fun t => decide (t ∈ get_all_tags schema)),
   tags.filter (fun t => ! decide (t ∈ get_all_tags schema)))

/-- The union the claim under review ascribes to `all_tags()`: all four of
the spec's sets, countries included.  (Spec-side definition, for
comparison with `get_all_tags`.) -/
def allowedTagsSpec (schema : TagSchema) : List String :=
  (schema.categories.map Prod.fst) ++ (schema.visual_tags.map Prod.fst)
    ++ (schema.scene_tags.map Prod.fst) ++ (schema.countries.map Prod.fst)

/-! ### Query intent (`src/app/schemas/query.py`) -/

/-- `GeoHints`. -/
structure GeoHints : Type where
  place_name : Option String
  country : Option String
  deriving DecidableEq, Repr

/-- `QueryIntent`.  `geo_hints` is `Option` because the retrieval code
guards it with `if query_intent.geo_hints` before dereferencing. -/
structure QueryIntent : Type where
  name_candidates : List String
  query_tags : List String
  season_hint : String
  scene_hints : List String
  geo_hints : Option GeoHints
  confidence_notes : List String
  deriving DecidableEq, Repr

/-! ### Country normalisation (`src/app/tools/sql_search_tool.py`, lines 16–76) -/

/-- A value of `COUNTRY_NAME_MAPPING`: either a single canonical name
(the Chinese → English entries) or a list of variants (the English
entries). -/
inductive CountryMapVal : Type where
  | one (name : String)
  | many (names : List String)
  deriving DecidableEq, Repr

/-- `COUNTRY_NAME_MAPPING`, entry for entry. -/
def COUNTRY_NAME_MAPPING : List (String × CountryMapVal) :=
  [("中国", .one "China"),
   ("美国", .one "United States"),
   ("英国", .one "United Kingdom"),
   ("法国", .one "France"),
   ("德国", .one "Germany"),
   ("意大利", .one "Italy"),
   ("西班牙", .one "Spain"),
   ("日本", .one "Japan"),
   ("韩国", .one "South Korea"),
   ("印度", .one "India"),
   ("巴西", .one "Brazil"),
   ("澳大利亚", .one "Australia"),
   ("加拿大", .one "Canada"),
   ("墨西哥", .one "Mexico"),
   ("俄罗斯", .one "Russia"),
   ("China", .many ["China", "People\x27s Republic of China", "PRC"]),
   ("United States", .many ["United States", "USA", "US", "United States of America"]),
   ("United Kingdom", .many ["United Kingdom", "UK", "Britain", "Great Britain"]),
   ("France", .many ["France"]),
   ("Italy", .many ["Italy"]),
   ("Japan", .many ["Japan"])]

/-- Dictionary lookup in `COUNTRY_NAME_MAPPING`. -/
def countryMappingGet (key : String) : Option CountryMapVal :=
  (COUNTRY_NAME_MAPPING.find? (fun p => p.1 = key)).map Prod.snd

/-- `normalize_country_name` on a string argument.  The second
`if country in COUNTRY_NAME_MAPPING` block of the source (lines 67–73)
repeats the first block's condition and is unreachable; it is therefore
not modelled.  In the `.one` branch, `COUNTRY_NAME_MAPPING.get(base_name,
[])` always yields a list or is absent for the base names occurring in the
table. -/
def normalize_country_name (country : String) : List String :=
  if country = "" then []
  else
    let c := pyStrip country
    match countryMappingGet c with
    | some (.many l) => l
    | some (.one b) =>
        b :: (match countryMappingGet b with
              | some (.many l) => l
              | _ => [])
    | none => [c]

/-- `normalize_country_name` under Python's dynamic typing: a falsy
argument returns `[]` before any attribute access; a truthy non-string
argument fails at `country.strip()` with `AttributeError`. -/
def normalize_country_name_py (country : PyVal) : Except PyErr (List String) :=
  if ¬ country.truthy then .ok []
  else
    match country with
    | .str s => .ok (normalize_country_name s)
    | _ => .error .attributeError

/-! ### Candidates, rows and result envelopes -/

/-- A row of one of the fixed search queries (all selected columns
present; `popularity` is modelled non-null, as the conversion
`float(row['popularity'])` assumes). -/
structure Row : Type where
  viewpoint_id : Int
  name_primary : String
  name_variants : Option (List (String × String))
  category_norm : Option String
  name_score : ℚ
  geo_score : ℚ
  category_score : ℚ
  popularity : ℚ
  deriving DecidableEq, Repr

/-- `ViewpointCandidate` (`src/app/schemas/query.py`).  The optional
`tag_overlap_score` / `season_match_bonus` fields are never set on any
path modelled here and are omitted. -/
structure Candidate : Type where
  viewpoint_id : Int
  name_primary : String
  name_variants : List (String × String)
  category_norm : Option String
  name_score : ℚ
  geo_score : ℚ
  category_score : ℚ
  popularity : ℚ
  deriving DecidableEq, Repr

/-- Candidate construction in `search_by_name` / `search_by_category` /
`search_by_tags` (`name_variants` is `row['name_variants'] or {}`). -/
def Row.toCandidate (r : Row) : Candidate :=
  ⟨r.viewpoint_id, r.name_primary, r.name_variants.getD [], r.category_norm,
   r.name_score, r.geo_score, r.category_score, r.popularity⟩

/-- A row returned by an LLM-generated query: the score columns may be
missing (`row.get(..., default)` in `search_with_llm_sql`). -/
structure RawRow : Type where
  viewpoint_id : Int
  name_primary : String
  name_variants : Option (List (String × String))
  category_norm : Option String
  name_score : Option ℚ
  geo_score : Option ℚ
  category_score : Option ℚ
  popularity : Option ℚ
  deriving DecidableEq, Repr

/-- Candidate construction in `search_with_llm_sql`, with its defaults:
`name_score` 0.0, `geo_score` 1.0, `category_score` 0.0, `popularity`
0.0. -/
def RawRow.toCandidate (r : RawRow) : Candidate :=
  ⟨r.viewpoint_id, r.name_primary, r.name_variants.getD [], r.category_norm,
   r.name_score.getD 0, r.geo_score.getD 1, r.category_score.getD 0,
   r.popularity.getD 0⟩

/-- A bound SQL parameter. -/
inductive SqlParam : Type where
  | s (v : String)
  | i (n : Int)
  | null
  deriving DecidableEq, Repr

/-- The result dictionary each search primitive returns.  Absent keys are
`none` / `[]` / `false`. -/
structure Envelope : Type where
  candidates : List Candidate
  count : Nat
  sql : Option String := none
  params : List SqlParam := []
  warning : Option String := none
  suggestion : Option String := none
  generated_by : Option String := none
  llm_sql_failed : Bool := false
  llm_sql : Option String := none
  llm_params : Option (List SqlParam) := none
  deriving DecidableEq, Repr

/-- The database oracle backing `SQLSearchTool`: for each fixed query
shape, the rows the store returns given the bound parameters.  `execRaw`
runs an arbitrary (LLM-generated) statement and may fail. -/
structure SqlDB : Type where
  nameRows : String → Int → List Row
  catCountryRows : List String → String → Int → List Row
  catRows : String → Int → List Row
  catCountryCount : String → List String → Int
  tagRows : List String → List String → Option String → Int → List Row
  execRaw : String → List SqlParam → Except PyErr (List RawRow)

/-- The `category_norm` values the retrieval layer recognises. -/
def validCategories : List String :=
  ["mountain", "lake", "temple", "museum", "park",
   "coast", "cityscape", "monument", "bridge",
   "palace", "tower", "cave", "waterfall", "valley", "island"]

/-! ### SQL text of the fixed primitives (single-lined) -/

/-- The `search_by_name` statement. -/
def nameSearchSql : String :=
  "SELECT viewpoint_id, name_primary, name_variants, category_norm, popularity, CASE WHEN name_primary ILIKE %s THEN 1.0 ELSE 0.5 END as name_score, 1.0 as geo_score, CASE WHEN category_norm IS NOT NULL THEN 1.0 ELSE 0.0 END as category_score FROM viewpoint_entity WHERE name_primary ILIKE %s OR name_variants::text ILIKE %s ORDER BY name_score DESC, popularity DESC NULLS LAST LIMIT %s"

/-- The interpolated country filter: one `ILIKE` disjunct per variant
(`"1=0"` when the variant list is empty). -/
def countryFilterSql (variants : List String) : String :=
  if variants.isEmpty then "1=0"
  else String.intercalate " OR " (variants.map (fun _ => "vca.viewpoint_country ILIKE %s"))

/-- The `search_by_category` statement with country filter. -/
def categoryCountrySql (cf : String) : String :=
  "SELECT e.viewpoint_id, e.name_primary, e.name_variants, e.category_norm, e.popularity, 0.0 as name_score, CASE WHEN (" ++ cf ++ ") THEN 1.0 ELSE 0.0 END as geo_score, CASE WHEN e.category_norm = %s THEN 1.0 ELSE 0.0 END as category_score FROM viewpoint_entity e INNER JOIN viewpoint_commons_assets vca ON e.viewpoint_id = vca.viewpoint_id WHERE e.category_norm = %s AND vca.viewpoint_country IS NOT NULL AND (" ++ cf ++ ") ORDER BY geo_score DESC, e.popularity DESC NULLS LAST LIMIT %s"

/-- The `search_by_category` statement used when the country filter found
nothing (geo_score fixed at 0.5). -/
def categoryFallbackSql : String :=
  "SELECT viewpoint_id, name_primary, name_variants, category_norm, popularity, 0.0 as name_score, 0.5 as geo_score, CASE WHEN category_norm = %s THEN 1.0 ELSE 0.0 END as category_score FROM viewpoint_entity WHERE category_norm = %s ORDER BY popularity DESC NULLS LAST LIMIT %s"

/-- The `search_by_category` statement without country filter. -/
def categoryNoCountrySql : String :=
  "SELECT viewpoint_id, name_primary, name_variants, category_norm, popularity, 0.0 as name_score, 1.0 as geo_score, CASE WHEN category_norm = %s THEN 1.0 ELSE 0.0 END as category_score FROM viewpoint_entity WHERE category_norm = %s ORDER BY popularity DESC NULLS LAST LIMIT %s"

/-! ### `search_by_name` (lines 610–673) -/

/-- `SQLSearchTool.search_by_name`. -/
def search_by_name (db : SqlDB) (name_pattern : String) (top_n : Int) : Envelope :=
  let pattern := "%" ++ name_pattern ++ "%"
  let params := [SqlParam.s pattern, SqlParam.s pattern, SqlParam.s pattern, SqlParam.i top_n]
  let cands := (db.nameRows pattern top_n).map Row.toCandidate
  { candidates := cands, count := cands.length, sql := some nameSearchSql, params := params,
    warning :=
      if cands.length = 0 then
        some ("No viewpoints found matching \x27" ++ name_pattern ++ "\x27. The database may not contain this location.")
      else none,
    suggestion :=
      if cands.length = 0 then
        some "Try searching with a different name or check if the viewpoint exists in the database."
      else none }

/-! ### `search_by_category` (lines 675–831) -/

/-- Rendering of a Python value inside an f-string. -/
def PyVal.fmt : PyVal → String
  | .str s => s
  | .int n => toString n
  | .none' => "None"

/-- The branch of `search_by_category` taken when a truthy country was
supplied, after `normalize_country_name` succeeded with `variants`.
`countryDisplay` is the country value as rendered into the warning
f-string. -/
def searchByCategoryWithVariants (db : SqlDB) (category : String)
    (variants : List String) (countryDisplay : String) (top_n : Int) : Envelope :=
  let country_params := variants.map (fun v => SqlParam.s ("%" ++ v ++ "%"))
  let rows1 := db.catCountryRows variants category top_n
  let sql1 := categoryCountrySql (countryFilterSql variants)
  let params1 := country_params ++ [SqlParam.s category, SqlParam.s category] ++ country_params ++ [SqlParam.i top_n]
  let (sql, params, rows) :=
    if rows1.length = 0 then
      (categoryFallbackSql, [SqlParam.s category, SqlParam.s category, SqlParam.i top_n],
       db.catRows category top_n)
    else (sql1, params1, rows1)
  let cands := rows.map Row.toCandidate
  let base : Envelope := { candidates := cands, count := cands.length, sql := some sql, params := params }
  let country_match_count := db.catCountryCount category variants
  if country_match_count = 0 ∧ cands.length > 0 then
    { base with
      warning := some ("No " ++ category ++ " viewpoints found in " ++ countryDisplay ++ " with country information. Showing all " ++ category ++ " viewpoints (some may not have country data in database)."),
      suggestion := some "To get accurate country filtering, ensure country information is populated in the database using reverse geocoding." }
  else if country_match_count = 0 ∧ cands.length = 0 then
    { base with
      warning := some ("No " ++ category ++ " viewpoints found in the database."),
      suggestion := some "The database may not contain this category of viewpoints." }
  else base

/-- `SQLSearchTool.search_by_category` for the `str | None` typing its
in-repository string call sites use (`_fallback_search`,
`search_with_llm_sql`). -/
def search_by_category (db : SqlDB) (category : String) (country : Option String)
    (top_n : Int) : Envelope :=
  if truthyOptStr country then
    let c := country.getD ""
    searchByCategoryWithVariants db category (normalize_country_name c) c top_n
  else
    let cands := (db.catRows category top_n).map Row.toCandidate
    { candidates := cands, count := cands.length, sql := some categoryNoCountrySql,
      params := [SqlParam.s category, SqlParam.s category, SqlParam.i top_n] }

/-- `SQLSearchTool.search_by_category` under Python's dynamic typing of
its `country` parameter: a falsy value skips the country filter entirely;
a truthy non-string value reaches `normalize_country_name`, whose
`country.strip()` raises `AttributeError`. -/
def search_by_category_dyn (db : SqlDB) (category : String) (country : PyVal)
    (top_n : Int) : Except PyErr Envelope :=
  if ¬ country.truthy then .ok (search_by_category db category none top_n)
  else
    match normalize_country_name_py country with
    | .error e => .error e
    | .ok variants => .ok (searchByCategoryWithVariants db category variants country.fmt top_n)

/-! ### `search_by_tags` (lines 833–939) -/

/-- `json.dumps([tag])`. -/
def jsonTagParam (t : String) : String := "[\"" ++ t ++ "\"]"

/-- The `visual_to_category` map of `search_by_tags`. -/
def visual_to_category : List (String × String) :=
  [("snow_peak", "mountain"), ("waterfall", "waterfall")]

/-- `SQLSearchTool.search_by_tags`.  The SQL string is assembled from the
same pieces as the source; the rows come from the `tagRows` oracle, keyed
by the category list, the tag list, the effective season filter and the
limit. -/
def search_by_tags (db : SqlDB) (tags : List String) (season : Option String)
    (top_n : Int) : Envelope :=
  let category_list := tags.filterMap (fun t => (visual_to_category.find? (fun p => p.1 = t)).map Prod.snd)
  let seasonFilt : Option String :=
    match season with
    | some s => if s ≠ "" ∧ s ≠ "unknown" then some s else none
    | none => none
  let catParams := category_list.map SqlParam.s
  let tagParams :=
    if tags.isEmpty then []
    else tags.map (fun t => SqlParam.s (jsonTagParam t)) ++
      (match seasonFilt with | some s => [SqlParam.s s] | none => [])
  let params := catParams ++ tagParams ++ [SqlParam.i top_n]
  let cands := (db.tagRows category_list tags seasonFilt top_n).map Row.toCandidate
  let catPlaceholders := String.intercalate "," (category_list.map (fun _ => "%s"))
  let category_score_sql :=
    if category_list.isEmpty then "0.0"
    else "CASE WHEN e.category_norm IN (" ++ catPlaceholders ++ ") THEN 1.0 ELSE 0.0 END"
  let conditions :=
    (if category_list.isEmpty then [] else ["category_norm IN (" ++ catPlaceholders ++ ")"]) ++
    (if tags.isEmpty then []
     else ["viewpoint_id IN (SELECT DISTINCT viewpoint_id FROM viewpoint_visual_tags WHERE "
       ++ String.intercalate " OR " (tags.map (fun _ => "tags @> %s::jsonb"))
       ++ (match seasonFilt with | some _ => " AND season = %s" | none => "") ++ ")"])
  let where_clause := if conditions.isEmpty then "1=1" else String.intercalate " AND " conditions
  let sql := "SELECT DISTINCT e.viewpoint_id, e.name_primary, e.name_variants, e.category_norm, e.popularity, 0.0 as name_score, 1.0 as geo_score, " ++ category_score_sql ++ " as category_score FROM viewpoint_entity e WHERE " ++ where_clause ++ " ORDER BY e.popularity DESC NULLS LAST LIMIT %s"
  { candidates := cands, count := cands.length, sql := some sql, params := params }

/-! ### `_fallback_search` (lines 541–608) -/

/-- Priority 4 of `_fallback_search`: for each name candidate longer than
2 characters, search for its prefix (the first half when longer than 4
characters, the whole name otherwise); the first non-empty result wins. -/
def partialNameTry (db : SqlDB) (top_n : Int) : List String → Option Envelope
  | [] => none
  | name :: rest =>
    if name.length > 2 then
      let partial_name := if name.length > 4 then ⟨name.data.take (name.length / 2)⟩ else name
      let r := search_by_name db partial_name top_n
      if r.count > 0 then some r else partialNameTry db top_n rest
    else partialNameTry db top_n rest

/-- The last-resort empty envelope of `_fallback_search`. -/
def fallbackEmptyEnvelope : Envelope :=
  { candidates := [], count := 0,
    warning := some "No viewpoints found matching the search criteria. The database may not contain viewpoints matching all specified conditions.",
    suggestion := some "Try searching with fewer criteria, or check if the database contains relevant viewpoints. You can also try searching by name only." }

/-- `SQLSearchTool._fallback_search`: name search, category search with
then without country, tag search, partial-name search; first non-empty
result is returned. -/
def fallback_search (db : SqlDB) (intent : QueryIntent) (top_n : Int) : Envelope :=
  let nameTry : Option Envelope :=
    match intent.name_candidates with
    | [] => none
    | n :: _ =>
      let r := search_by_name db n top_n
      if r.count > 0 then some r else none
  match nameTry with
  | some r => r
  | none =>
    let categories := intent.query_tags.filter (fun t => validCategories.contains t)
    let catTry : Option Envelope :=
      match categories with
      | [] => none
      | c :: _ =>
        let country : Option String :=
          match intent.geo_hints with
          | some g => g.country
          | none => none
        let withCountry : Option Envelope :=
          if truthyOptStr country then
            let r := search_by_category db c country top_n
            if r.count > 0 then some r else none
          else none
        match withCountry with
        | some r => some r
        | none =>
          let r := search_by_category db c none top_n
          if r.count > 0 then some r else none
    match catTry with
    | some r => r
    | none =>
      let vtags := intent.query_tags.filter (fun t => ¬ validCategories.contains t)
      let tagsTry : Option Envelope :=
        match vtags with
        | [] => none
        | _ =>
          let season := if intent.season_hint ≠ "unknown" then some intent.season_hint else none
          let r := search_by_tags db vtags season top_n
          if r.count > 0 then some r else none
      match tagsTry with
      | some r => r
      | none =>
        match partialNameTry db top_n intent.name_candidates with
        | some r => r
        | none => fallbackEmptyEnvelope

/-! ### LLM SQL generation (`_generate_sql_with_llm`, lines 178–404)

The outbound LLM is an oracle: the raw text of
`response.choices[0].message.content` is a parameter.  The prompt
construction (including the `search_type` computed in
`search_with_llm_sql`) only influences that text and needs no model. -/

/-- The backtick character. -/
def btick : Char := '\x60'

/-- The third fence substitution, `re.sub(r'```\s*$', '', sql)`: cut at
the leftmost position where three backticks are followed only by
whitespace up to the end of the string. -/
def stripFenceEnd : List Char → List Char
  | [] => []
  | c :: rest =>
    if c = btick ∧ rest.take 2 = [btick, btick] ∧ (rest.drop 2).all isPyWs then []
    else c :: stripFenceEnd rest

/-- Lines 310–316: `.strip()` of the message content, removal of a
leading ```` ```sql ```` (case-insensitive) or ```` ``` ```` fence with
trailing whitespace, removal of a closing fence, final `.strip()`. -/
def stripSqlFences (raw : String) : String :=
  let s0 := stripChars raw.data
  let s1 :=
    if "```sql".data.isPrefixOf (s0.map Char.toLower) then (s0.drop 6).dropWhile isPyWs
    else s0
  let s2 :=
    if "```".data.isPrefixOf s1 then (s1.drop 3).dropWhile isPyWs
    else s1
  ⟨stripChars (stripFenceEnd s2)⟩

/-- The forbidden keyword list of `_generate_sql_with_llm` (line 323). -/
def forbidden_keywords : List String :=
  ["INSERT", "UPDATE", "DELETE", "DROP", "CREATE", "ALTER", "TRUNCATE", "EXEC", "EXECUTE"]

/-- Lines 310–326: fence stripping followed by the security checks: the
uppercased, stripped SQL must start with `SELECT` and contain no
forbidden keyword (first offending keyword reported). -/
def validateLlmSql (raw : String) : Except PyErr String :=
  let sql := stripSqlFences raw
  let sql_upper := pyStrip (pyUpper sql)
  if ¬ pyStartsWith sql_upper "SELECT" then
    .error (.valueError "Only SELECT queries are allowed")
  else
    match forbidden_keywords.find? (fun kw => pyContains sql_upper kw) with
    | some kw => .error (.valueError ("Forbidden SQL keyword: " ++ kw))
    | none => .ok sql

/-- Lines 328–371: the parameter list materialised from the intent, in
the fixed order: name patterns, categories, visual tags as JSON arrays,
scene terms, country variants, season, limit. -/
def materializeParams (intent : QueryIntent) (top_n : Int) : List SqlParam :=
  intent.name_candidates.map (fun n => SqlParam.s ("%" ++ n ++ "%"))
  ++ (intent.query_tags.filter (fun t => validCategories.contains t)).map SqlParam.s
  ++ (intent.query_tags.filter (fun t => ¬ validCategories.contains t)).map
       (fun t => SqlParam.s (jsonTagParam t))
  ++ intent.scene_hints.map (fun sc => SqlParam.s ("%" ++ sc ++ "%"))
  ++ (match intent.geo_hints with
      | some g =>
        match g.country with
        | some c =>
          if c ≠ "" then (normalize_country_name c).map (fun v => SqlParam.s ("%" ++ v ++ "%"))
          else []
        | none => []
      | none => [])
  ++ (if intent.season_hint ≠ "" ∧ intent.season_hint ≠ "unknown"
      then [SqlParam.s intent.season_hint] else [])
  ++ [SqlParam.i top_n]

/-- Lines 373–398: on a placeholder/parameter count mismatch, pad with
`None` (too few parameters) or trim — keeping the trailing `top_n` when
the last parameter equals it and at least one placeholder remains (too
many). -/
def adjustParams (params : List SqlParam) (param_count : Nat) (top_n : Int) : List SqlParam :=
  if params.length < param_count then
    params ++ List.replicate (param_count - params.length) SqlParam.null
  else if params.length > param_count then
    if params.length > 0 ∧ params.getLast? = some (SqlParam.i top_n) ∧ param_count > 0 then
      params.take (param_count - 1) ++ [SqlParam.i top_n]
    else params.take param_count
  else params

/-- `SQLSearchTool._generate_sql_with_llm`, given the raw LLM output:
validate, materialise the parameters, reconcile their count with the
`%s` count, and return the pair.  A failed check raises (`Except.error`);
a count mismatch does not. -/
def generate_sql_with_llm (raw : String) (intent : QueryIntent) (top_n : Int) :
    Except PyErr (String × List SqlParam) :=
  match validateLlmSql raw with
  | .error e => .error e
  | .ok sql =>
    let params := materializeParams intent top_n
    let param_count := countPlaceholders sql
    .ok (sql, adjustParams params param_count top_n)

/-- `SQLSearchTool._validate_and_execute_sql`: re-check the `SELECT`
prefix, then execute. -/
def validate_and_execute_sql (db : SqlDB) (sql : String) (params : List SqlParam) :
    Except PyErr (List RawRow) :=
  let sql_upper := pyStrip (pyUpper sql)
  if ¬ pyStartsWith sql_upper "SELECT" then
    .error (.valueError "Only SELECT queries are allowed")
  else db.execRaw sql params

/-- `or`-style defaulting of an optional string (Python `x or default`). -/
def orDefaultStr (o : Option String) (d : String) : String :=
  match o with
  | some s => if s = "" then d else s
  | none => d

/-- `SQLSearchTool.search_with_llm_sql` (lines 427–539), with the raw LLM
output as a parameter.  Any exception inside the `try` block (validation
failure, execution failure) is caught and answered with
`_fallback_search`; an executed query with zero candidates also falls
back, annotating the fallback envelope. -/
def search_with_llm_sql (db : SqlDB) (intent : QueryIntent) (top_n : Int)
    (raw : String) : Envelope :=
  let tryBody : Except PyErr Envelope :=
    match generate_sql_with_llm raw intent top_n with
    | .error e => .error e
    | .ok (sql, params) =>
      match validate_and_execute_sql db sql params with
      | .error e => .error e
      | .ok rows =>
        let candidates := rows.map RawRow.toCandidate
        if candidates.length = 0 then
          let fb := fallback_search db intent top_n
          if fb.count > 0 then
            .ok { fb with
              warning := some (pyStrip
                ("LLM-generated SQL query returned no results. Using fallback search method with relaxed criteria. "
                  ++ (fb.warning.getD ""))),
              suggestion := some (orDefaultStr fb.suggestion
                "The search used relaxed criteria to find results. Some criteria (like category or country filters) may not have matched exactly."),
              llm_sql_failed := true,
              llm_sql := some sql,
              llm_params := some params }
          else
            .ok { candidates := [], count := 0, sql := some sql, params := params,
                  generated_by := some "llm",
                  warning := some "No viewpoints found matching the query. The database may not contain viewpoints matching all the specified criteria.",
                  suggestion := some "Try searching with fewer or different criteria, or check if the database contains relevant viewpoints." }
        else
          .ok { candidates := candidates, count := candidates.length, sql := some sql,
                params := params, generated_by := some "llm" }
  match tryBody with
  | .ok env => env
  | .error _ => fallback_search db intent top_n

/-! ### The agent's `search_by_category` tool call
(`src/app/services/agent_service.py`, lines 411–415) -/

/-- `AgentService._execute_tool` for `search_by_category`: the tool's
`top_n` argument (default 50) is passed as the second *positional*
argument of `SQLSearchTool.search_by_category`, which is `country`; the
`top_n` parameter of `search_by_category` keeps its default 50. -/
def execute_tool_search_by_category (db : SqlDB) (category : String)
    (top_n_arg : Option Int) : Except PyErr Envelope :=
  let top_n := top_n_arg.getD 50
  search_by_category_dyn db category (PyVal.int top_n) 50

/-! ### Enrichment (`src/app/services/enrichment.py`) -/

/-- A citation object of `viewpoint_wiki.citations` (data model:
`{ref, text, url?}`); fields optional because the source reads them with
`.get(..., '')`. -/
structure Citation : Type where
  ref : Option String
  text : Option String
  url : Option String
  deriving DecidableEq, Repr

/-- A row of `viewpoint_wiki`. `sections` is opaque here: nothing modelled
reads inside it. -/
structure WikiRow : Type where
  wikipedia_title : Option String
  wikipedia_lang : Option String
  extract_text : Option String
  sections : Option (List String)
  citations : Option (List Citation)
  deriving DecidableEq, Repr

/-- The payload `enrich_wikipedia` returns. -/
structure WikiPayload : Type where
  title : Option String
  lang : Option String
  extract : Option String
  sections : List String
  citations : List Citation
  deriving DecidableEq, Repr

/-- A row of `viewpoint_visual_tags`. -/
structure EvidenceDict : Type where
  source : Option String
  reference : Option String
  text : Option String
  deriving DecidableEq, Repr

/-- A row of `viewpoint_visual_tags` (the columns `enrich_visual_tags`
selects). -/
structure VTagRow : Type where
  season : String
  tags : Option (List String)
  confidence : ℚ
  evidence : Option EvidenceDict
  tag_source : String
  deriving DecidableEq, Repr

/-- The per-row dictionary `enrich_visual_tags` builds
(`tags or []`, `evidence or {}`). -/
structure VTagPayload : Type where
  season : String
  tags : List String
  confidence : ℚ
  evidence : EvidenceDict
  tag_source : String
  deriving DecidableEq, Repr

/-- A row of `viewpoint_ai_summaries` (the columns the fallback of
`get_historical_summary` selects). -/
structure AiRow : Type where
  history_summary : Option String
  source : Option String
  updated_at : Option ℚ
  deriving DecidableEq, Repr

/-- The database oracle backing `EnrichmentService`: the stored rows per
viewpoint id. -/
structure EnrichDB : Type where
  wiki : Int → Option WikiRow
  vtags : Int → List VTagRow
  aiSummaries : Int → List AiRow

/-- `EnrichmentService.enrich_wikipedia`. -/
def enrich_wikipedia (edb : EnrichDB) (vid : Int) : Option WikiPayload :=
  (edb.wiki vid).map (fun r =>
    ⟨r.wikipedia_title, r.wikipedia_lang, r.extract_text,
     r.sections.getD [], r.citations.getD []⟩)

/-- `EnrichmentService.enrich_visual_tags`: with a truthy season hint
other than `unknown`, keep the rows whose season equals the hint or is
`unknown`; otherwise keep all rows.  The `ORDER BY` (season match first,
then confidence) only permutes this list and is left to the database;
every property proved below is order-independent, so the rows are kept in
table order. -/
def enrich_visual_tags (edb : EnrichDB) (vid : Int) (season_hint : Option String) :
    List VTagPayload :=
  let rows :=
    if truthyOptStr season_hint ∧ season_hint ≠ some "unknown" then
      (edb.vtags vid).filter (fun r => r.season = season_hint.getD "" ∨ r.season = "unknown")
    else edb.vtags vid
  rows.map (fun r => ⟨r.season, r.tags.getD [], r.confidence, r.evidence.getD ⟨none, none, none⟩, r.tag_source⟩)

/-! ### A stable descending sort

`list.sort(key=κ, reverse=True)` in CPython is a stable sort: elements
are ordered by strictly descending key, and elements with equal keys keep
their relative order.  `pySortDescBy` realises exactly that order (the
lemmas `pySortDescBy_perm`, `pySortDescBy_sorted` and
`pySortDescBy_filter_key` below pin it down: any two lists satisfying the
three of them are equal). -/

/-- Stable descending sort by a key, as CPython's
`sort(key=..., reverse=True)` orders a list. -/
def pySortDescBy {α β : Type*} [LinearOrder β] (κ : α → β) (l : List α) : List α :=
  l.insertionSort (fun a b => κ b ≤ κ a)

/-- Sort key for `ORDER BY updated_at DESC NULLS LAST`: null sorts last,
i.e. below every timestamp. -/
def aiKey (r : AiRow) : WithBot ℚ :=
  match r.updated_at with
  | some t => (t : WithBot ℚ)
  | none => ⊥

/-- The `SELECT ... FROM viewpoint_ai_summaries ... ORDER BY updated_at
DESC NULLS LAST LIMIT 1` query of `get_historical_summary`. -/
def queryLatestAiSummary (edb : EnrichDB) (vid : Int) : Option AiRow :=
  (pySortDescBy aiKey (edb.aiSummaries vid)).head?

/-- `Evidence` (`src/app/schemas/query.py`). -/
structure Evidence : Type where
  source : String
  reference : String
  text : Option String
  deriving DecidableEq, Repr

/-- `summary[:200] + "..." if len(summary) > 200 else summary`. -/
def truncate200 (s : String) : String :=
  if s.length > 200 then String.mk (s.data.take 200) ++ "..." else s

/-- The AI-summary fallback of `get_historical_summary` (lines 297–319).
-/
def aiSummaryFallback (edb : EnrichDB) (vid : Int) : Option String × List Evidence :=
  match queryLatestAiSummary edb vid with
  | some row =>
    match row.history_summary with
    | some s =>
      if s ≠ "" then
        (some s, [⟨"ai_summary", orDefaultStr row.source "viewpoint_ai_summaries", some (truncate200 s)⟩])
      else (none, [])
    | none => (none, [])
  | none => (none, [])

/-- `EnrichmentService.get_historical_summary`: the encyclopedia extract
with `wikipedia` / `wikipedia_citation` evidence when a wiki row with a
truthy extract exists, else the latest AI summary with `ai_summary`
evidence, else nothing. -/
def get_historical_summary (edb : EnrichDB) (vid : Int) :
    Option String × List Evidence :=
  match enrich_wikipedia edb vid with
  | some w =>
    match w.extract with
    | some summary =>
      if summary ≠ "" then
        (some summary,
         ⟨"wikipedia", w.title.getD "", some (truncate200 summary)⟩ ::
           w.citations.map (fun c =>
             ⟨"wikipedia_citation", c.ref.getD "", some (c.text.getD "")⟩))
      else aiSummaryFallback edb vid
    | none => aiSummaryFallback edb vid
  | none => aiSummaryFallback edb vid

/-! ### Ranking / fusion (`src/app/services/llm_service.py`) -/

/-- `VisualTagInfo` (`src/app/schemas/query.py`). -/
structure VisualTagInfo : Type where
  season : String
  tags : List String
  confidence : ℚ
  evidence : List Evidence
  tag_source : String
  deriving DecidableEq, Repr

/-- `ViewpointResult` (`src/app/schemas/query.py`). -/
structure ViewpointResult : Type where
  viewpoint_id : Int
  name_primary : String
  name_variants : List (String × String)
  category_norm : Option String
  historical_summary : Option String
  historical_evidence : List Evidence
  visual_tags : List VisualTagInfo
  match_confidence : ℚ
  match_explanation : String
  deriving DecidableEq, Repr

/-- `str.split()` on whitespace, dropping empty pieces. -/
def splitWsStr (s : String) : List String :=
  (s.split isPyWs).filter (fun w => w ≠ "")

/-- First-occurrence deduplication (the iteration order chosen here for
the `set` of matched tag words; CPython's set iteration order is
unspecified, and no property proved below reads the explanation text). -/
def dedupFirst : List String → List String
  | [] => []
  | x :: rest => x :: (dedupFirst (rest.filter (fun y => y ≠ x)))
termination_by l => l.length
decreasing_by
  exact Nat.lt_succ_of_le (List.length_filter_le _ _)

/-- `LLMService._generate_match_explanation`. -/
def generate_match_explanation (c : Candidate) (intent : QueryIntent)
    (tag_overlap_score season_match_bonus : ℚ) : String :=
  let parts : List String :=
    (if c.name_score > 0.7 then ["Name matches: " ++ c.name_primary] else [])
    ++ (if c.category_score > 0 then
          ["Category: " ++ (match c.category_norm with | some s => s | none => "None")]
        else [])
    ++ (if tag_overlap_score > 0 then
          let cat_words := match c.category_norm with | some s => dedupFirst (splitWsStr s) | none => []
          let matched := cat_words.filter (fun w => intent.query_tags.contains w)
          if ¬ matched.isEmpty then ["Visual tags match: " ++ String.intercalate ", " matched] else []
        else [])
    ++ (if season_match_bonus > 0.5 then ["Strong " ++ intent.season_hint ++ " season match"] else [])
    ++ (if c.popularity > 0.7 then ["Highly popular destination"] else [])
  if ¬ parts.isEmpty then String.intercalate ". " parts
  else "General match based on available information."

/-- The loop body of `rank_and_fuse` for one candidate (lines 63–141).
The fetched `wiki_data` and `wikidata_data` are unused by the source body
apart from `get_historical_summary` and are not re-fetched here. -/
def process_candidate (edb : EnrichDB) (intent : QueryIntent) (c : Candidate) :
    ViewpointResult :=
  let visual_tags_data := enrich_visual_tags edb c.viewpoint_id (some intent.season_hint)
  let hist := get_historical_summary edb c.viewpoint_id
  let candidate_tags : Finset String :=
    visual_tags_data.foldl (fun s v => s ∪ v.tags.toFinset) ∅
  let query_tags_set : Finset String := intent.query_tags.toFinset
  let tag_overlap : ℕ := (candidate_tags ∩ query_tags_set).card
  let tag_overlap_score : ℚ :=
    if query_tags_set ≠ ∅ then (tag_overlap : ℚ) / (query_tags_set.card : ℚ) else 0
  let season_match_bonus : ℚ :=
    if intent.season_hint ≠ "unknown" then
      visual_tags_data.foldl
        (fun b v => if v.season = intent.season_hint then max b v.confidence else b) 0
    else 0
  let match_confidence :=
    c.name_score * 0.4 + c.category_score * 0.2 + tag_overlap_score * 0.3
      + season_match_bonus * 0.1
  let visual_tags := visual_tags_data.map (fun v =>
    VisualTagInfo.mk v.season v.tags v.confidence
      [⟨v.evidence.source.getD "unknown", v.evidence.reference.getD "", v.evidence.text⟩]
      v.tag_source)
  ⟨c.viewpoint_id, c.name_primary, c.name_variants, c.category_norm,
   hist.1, hist.2, visual_tags, match_confidence,
   generate_match_explanation c intent tag_overlap_score season_match_bonus⟩

/-- `LLMService.rank_and_fuse`: process the first `top_k * 2` candidates,
sort the results stably by descending `match_confidence`, return the
first `top_k`. -/
def rank_and_fuse (edb : EnrichDB) (intent : QueryIntent) (top_k : Nat)
    (candidates : List Candidate) : List ViewpointResult :=
  ((pySortDescBy (fun r => r.match_confidence)
      ((candidates.take (top_k * 2)).map (process_candidate edb intent))).take top_k)

/-! ### The agent loop (`src/app/services/agent_service.py`, lines
280–391)

The chat model is an oracle `respond : Nat → ModelMessage` giving the
message returned by the n-th (0-based) `chat.completions.create` call;
tool execution is an oracle from tool name and serialised arguments to a
serialised result. -/

/-- One tool call of a model message. -/
structure ToolCall : Type where
  name : String
  args : String
  id : String
  deriving DecidableEq, Repr

/-- A chat-model message: its text content, and its (possibly empty) tool
call list — `if message.tool_calls:` treats an empty list as "no tool
call". -/
structure ModelMessage : Type where
  content : String
  tool_calls : List ToolCall
  deriving DecidableEq, Repr

/-- An entry of `tool_calls_log`. -/
structure ToolLogEntry : Type where
  tool : String
  arguments : String
  result : String
  deriving DecidableEq, Repr

/-- The dictionary `answer_query` returns. -/
structure AgentAnswer : Type where
  answer : String
  tool_calls : List ToolLogEntry
  iterations : Nat
  error : Option String
  deriving DecidableEq, Repr

/-- The answer text of the exhausted loop. -/
def maxIterAnswer : String :=
  "I\x27ve reached the maximum number of iterations. Please try rephrasing your query."

/-- The `while iteration < max_iterations` loop of `answer_query`:
`fuel` is the number of remaining iterations, `iteration` the number
already performed, `log` the tool calls recorded so far.  A message with
tool calls executes and records *every one of them*, then iterates; a
message without tool calls returns the answer; exhausted fuel returns the
`max_iterations_reached` error together with the partial log. -/
def agent_loop (respond : Nat → ModelMessage) (execTool : String → String → String) :
    Nat → Nat → List ToolLogEntry → AgentAnswer
  | 0, iteration, log => ⟨maxIterAnswer, log, iteration, some "max_iterations_reached"⟩
  | fuel + 1, iteration, log =>
    let m := respond iteration
    match m.tool_calls with
    | [] => ⟨m.content, log, iteration + 1, none⟩
    | tcs =>
      agent_loop respond execTool fuel (iteration + 1)
        (log ++ tcs.map (fun tc => ⟨tc.name, tc.args, execTool tc.name tc.args⟩))

/-- `AgentService.answer_query` with its model and tool oracles. -/
def answer_query (respond : Nat → ModelMessage) (execTool : String → String → String)
    (max_iterations : Nat) : AgentAnswer :=
  agent_loop respond execTool max_iterations 0 []

/-! ### The request mediator's server-side fallback
(`src/app/main.py`, lines 287–354)

This block runs inside `query_viewpoints` when the agent produced no
ranked results but an intent is known.  Two of its calls do not type
against `SQLSearchTool`: the tag search passes a `tag_sources=` keyword
that `search_by_tags` does not accept (a `TypeError` in Python), and the
history search calls a method `search_by_history_terms` that the class
does not define (an `AttributeError`). -/

/-- A `PyVal` extended with the string-list shape used by the
`tag_sources` keyword argument. -/
inductive PyArg : Type where
  | val (v : PyVal)
  | strList (l : List String)
  deriving DecidableEq, Repr

/-- The parameter names of `SQLSearchTool.search_by_tags`. -/
def search_by_tags_param_names : List String := ["self", "tags", "season", "top_n"]

/-- A Python call `sql_tool.search_by_tags(tags, **kwargs)`: a keyword
argument whose name is not a parameter of the method raises `TypeError`
before the body runs; otherwise extract `season` and `top_n` and run the
body. -/
def call_search_by_tags_kwargs (db : SqlDB) (tags : List String)
    (kwargs : List (String × PyArg)) : Except PyErr Envelope :=
  if kwargs.any (fun kv => ¬ search_by_tags_param_names.contains kv.1) then
    .error .typeError
  else
    let season : Option String :=
      match kwargs.find? (fun kv => kv.1 = "season") with
      | some (_, .val (.str s)) => some s
      | _ => none
    let top_n : Int :=
      match kwargs.find? (fun kv => kv.1 = "top_n") with
      | some (_, .val (.int n)) => n
      | _ => 50
    .ok (search_by_tags db tags season top_n)

/-- The methods `SQLSearchTool` defines. -/
def sqlSearchToolMethods : List String :=
  ["__init__", "_generate_sql_with_llm", "_validate_and_execute_sql",
   "search_with_llm_sql", "_fallback_search", "search_by_name",
   "search_by_category", "search_by_tags", "search_popular"]

/-- The attribute access `sql_tool.search_by_history_terms`:
`search_by_history_terms` is not among `sqlSearchToolMethods`, so the
lookup raises `AttributeError` (there is no body to model). -/
def call_search_by_history_terms : Except PyErr Envelope :=
  if sqlSearchToolMethods.contains "search_by_history_terms" then
    .ok fallbackEmptyEnvelope
  else .error .attributeError

/-- An entry of `sql_queries_log`. -/
structure SqlLogEntry : Type where
  sql : String
  params : List SqlParam
  deriving DecidableEq, Repr

/-- The `if name_result.get("sql")` guard before logging. -/
def envelopeLog (r : Envelope) : List SqlLogEntry :=
  match r.sql with
  | some s => if s ≠ "" then [⟨s, r.params⟩] else []
  | none => []

/-- Worker of `dedupByViewpointId`, carrying the set of seen ids. -/
def dedupByViewpointIdGo (seen : List Int) : List Candidate → List Candidate
  | [] => []
  | c :: rest =>
    if seen.contains c.viewpoint_id then dedupByViewpointIdGo seen rest
    else c :: dedupByViewpointIdGo (c.viewpoint_id :: seen) rest

/-- The `seen_ids` deduplication of the mediator fallback (keep the first
occurrence of each viewpoint id). -/
def dedupByViewpointId : List Candidate → List Candidate :=
  dedupByViewpointIdGo []

/-- The server-side fallback block of `query_viewpoints` (`src/app/main.py`
lines 287–354): (1) name search on the first name candidate; (2) if still
nothing and there are query tags, `search_by_tags` with
`season=season_hint`, `tag_sources=[...]`, `top_n=50`; (3) if still
nothing, `search_by_history_terms` on scene hints or name candidates;
then deduplicate by viewpoint id and rank with `rank_and_fuse`.  Returns
the ranked results and the SQL provenance log the block appends. -/
def mediator_fallback (db : SqlDB) (edb : EnrichDB) (intent : QueryIntent)
    (top_k : Nat) : Except PyErr (List ViewpointResult × List SqlLogEntry) :=
  let (fc1, logs1) :=
    match intent.name_candidates with
    | n :: _ =>
      let r := search_by_name db n 50
      (r.candidates, envelopeLog r)
    | [] => ([], [])
  let step2 : Except PyErr (List Candidate × List SqlLogEntry) :=
    if fc1.isEmpty ∧ ¬ intent.query_tags.isEmpty then
      match call_search_by_tags_kwargs db intent.query_tags
        [("season", .val (.str intent.season_hint)),
         ("tag_sources", .strList ["wiki_weak_supervision", "gpt_4o_mini_image_history"]),
         ("top_n", .val (.int 50))] with
      | .error e => .error e
      | .ok r => .ok (fc1 ++ r.candidates, logs1 ++ envelopeLog r)
    else .ok (fc1, logs1)
  match step2 with
  | .error e => .error e
  | .ok (fc2, logs2) =>
    let step3 : Except PyErr (List Candidate × List SqlLogEntry) :=
      if fc2.isEmpty then
        let history_terms :=
          if ¬ intent.scene_hints.isEmpty then intent.scene_hints else intent.name_candidates
        if ¬ history_terms.isEmpty then
          match call_search_by_history_terms with
          | .error e => .error e
          | .ok r => .ok (fc2 ++ r.candidates, logs2 ++ envelopeLog r)
        else .ok (fc2, logs2)
      else .ok (fc2, logs2)
    match step3 with
    | .error e => .error e
    | .ok (fc3, logs3) =>
      if ¬ fc3.isEmpty then
        let unique := dedupByViewpointId fc3
        .ok (rank_and_fuse edb intent top_k unique, logs3)
      else
        .ok ([], [])

/-! ### Spec-side definitions

These render the claims' own wording, for comparison with the functions
modelled from the source. -/

/-- The eight forbidden keywords as the claim lists them (the source's
list additionally carries `EXECUTE`, which contains `EXEC` as a
substring). -/
def forbiddenKeywords8 : List String :=
  ["INSERT", "UPDATE", "DELETE", "DROP", "CREATE", "ALTER", "TRUNCATE", "EXEC"]

/-- The claim's acceptance condition on a (fence-stripped) SQL string:
its uppercased form begins with `SELECT` and contains none of the eight
keywords. -/
def sqlAllowedSpec (sql : String) : Bool :=
  pyStartsWith (pyStrip (pyUpper sql)) "SELECT"
    && forbiddenKeywords8.all (fun kw => ! pyContains (pyStrip (pyUpper sql)) kw)

/-- The tag set a candidate contributes to the overlap computation: the
union of the tags of its (season-filtered) visual-tag records. -/
def candidateTagsOf (edb : EnrichDB) (intent : QueryIntent) (c : Candidate) :
    Finset String :=
  (enrich_visual_tags edb c.viewpoint_id (some intent.season_hint)).foldl
    (fun s v => s ∪ v.tags.toFinset) ∅

/-- The claim's `tag_overlap_score`:
`|candidate_tags ∩ query_tags| / |query_tags|`, `0` when `query_tags` is
empty. -/
def tagOverlapSpec (edb : EnrichDB) (intent : QueryIntent) (c : Candidate) : ℚ :=
  let q : Finset String := intent.query_tags.toFinset
  if q = ∅ then 0 else ((candidateTagsOf edb intent c ∩ q).card : ℚ) / (q.card : ℚ)

/-- The claim's `season_match_bonus`: the maximum confidence over the
candidate's visual-tag records whose season equals the intent's season
hint; `0` when the hint is `unknown` or no record matches. -/
def seasonBonusSpec (edb : EnrichDB) (intent : QueryIntent) (c : Candidate) : ℚ :=
  if intent.season_hint = "unknown" then 0
  else
    ((((edb.vtags c.viewpoint_id).filter
        (fun v => decide (v.season = intent.season_hint))).map VTagRow.confidence).max?).getD 0

/-- Stage five of the claimed cascade, one attempt per usable name
candidate (mirrors `partialNameTry`, listing every attempted envelope). -/
def partialNameStages (db : SqlDB) (top_n : Int) : List String → List Envelope
  | [] => []
  | name :: rest =>
    if name.length > 2 then
      search_by_name db
        (if name.length > 4 then ⟨name.data.take (name.length / 2)⟩ else name) top_n
        :: partialNameStages db top_n rest
    else partialNameStages db top_n rest

/-- The attempted stages of the claimed fallback cascade, in the claimed
order: (1) name search on the first name candidate; (2) category search
with country filter; (3) category search without country filter; (4) tag
search with season; (5) partial-name search per candidate.  Stages whose
precondition does not hold are not attempted. -/
def cascadeStages (db : SqlDB) (intent : QueryIntent) (top_n : Int) : List Envelope :=
  (match intent.name_candidates with
   | [] => []
   | n :: _ => [search_by_name db n top_n])
  ++ (match intent.query_tags.filter (fun t => validCategories.contains t) with
      | [] => []
      | c :: _ =>
        let country : Option String :=
          match intent.geo_hints with
          | some g => g.country
          | none => none
        (if truthyOptStr country then [search_by_category db c country top_n] else [])
          ++ [search_by_category db c none top_n])
  ++ (match intent.query_tags.filter (fun t => ¬ validCategories.contains t) with
      | [] => []
      | _ :: _ =>
        [search_by_tags db
          (intent.query_tags.filter (fun t => ¬ validCategories.contains t))
          (if intent.season_hint ≠ "unknown" then some intent.season_hint else none) top_n])
  ++ partialNameStages db top_n intent.name_candidates

/-! ### Concrete instances used by counterexamples and witnesses -/

/-- A database oracle with a single raw row answered to every
LLM-generated statement and empty fixed-query results. -/
def dbC1 : SqlDB :=
  { nameRows := fun _ _ => [], catCountryRows := fun _ _ _ => [],
    catRows := fun _ _ => [], catCountryCount := fun _ _ => 0,
    tagRows := fun _ _ _ _ => [],
    execRaw := fun _ _ => .ok [⟨1, "Mount Fuji", none, some "mountain", some 1, some 1, some 1, some (9/10)⟩] }

/-- An intent with one name candidate and nothing else. -/
def intentC1 : QueryIntent := ⟨["Fuji"], [], "unknown", [], none, []⟩

/-- An LLM output with zero `%s` placeholders. -/
def rawC1 : String := "SELECT viewpoint_id, name_primary FROM viewpoint_entity LIMIT 50"

/-- The LLM output used by the C1 witness: placeholder count matches. -/
def rawC1w : String :=
  "SELECT viewpoint_id FROM viewpoint_entity WHERE name_primary ILIKE %s LIMIT %s"

/-- A trivial intent (no names, no tags, no hints). -/
def intentTrivial : QueryIntent := ⟨[], [], "unknown", [], none, []⟩

/-- A model-response oracle whose first message carries two tool calls. -/
def respondC3 : Nat → ModelMessage := fun i =>
  if i = 0 then
    ⟨"", [⟨"search_by_name", "Fuji", "call_1"⟩, ⟨"search_by_category", "temple", "call_2"⟩]⟩
  else ⟨"done", []⟩

/-- A tool-execution oracle. -/
def execC3 : String → String → String := fun _ _ => "ok"

/-- A model-response oracle that answers immediately without tools. -/
def respondC3w : Nat → ModelMessage := fun _ => ⟨"here is your answer", []⟩

/-- A database oracle holding one `temple` row and nothing else. -/
def dbC4 : SqlDB :=
  { nameRows := fun _ _ => [], catCountryRows := fun _ _ _ => [],
    catRows := fun c _ => if c = "temple" then [⟨7, "Kinkaku-ji", none, some "temple", 0, 1, 1, 1⟩] else [],
    catCountryCount := fun _ _ => 0,
    tagRows := fun _ _ _ _ => [], execRaw := fun _ _ => .ok [] }

/-- An enrichment oracle with no stored payloads. -/
def edbEmpty : EnrichDB :=
  { wiki := fun _ => none, vtags := fun _ => [], aiSummaries := fun _ => [] }

/-- An intent carrying only a category tag. -/
def intentC4 : QueryIntent := ⟨[], ["temple"], "unknown", [], none, []⟩

/-- An enrichment oracle with one spring visual-tag record on every
viewpoint. -/
def edbC5 : EnrichDB :=
  { wiki := fun _ => none,
    vtags := fun _ => [⟨"spring", some ["cherry_blossom"], 4/5, none, "wiki_weak_supervision"⟩],
    aiSummaries := fun _ => [] }

/-- An intent asking for cherry blossoms in spring. -/
def intentC5 : QueryIntent := ⟨[], ["cherry_blossom"], "spring", [], none, []⟩

/-- A candidate with full name and category scores. -/
def candC5 : Candidate := ⟨3, "Maruyama Park", [], some "park", 1, 1, 1, 1/2⟩

/-- A tag schema whose `countries` set holds `France`. -/
def schemaC7 : TagSchema :=
  ⟨[("temple", "a temple")], [("snow_peak", "a snowy peak")],
   [("sunset", "a sunset view")], [("France", "a country")]⟩

/-- An enrichment oracle with a wiki row (one citation) and an AI summary
row. -/
def edbC8 : EnrichDB :=
  { wiki := fun vid =>
      if vid = 1 then
        some ⟨some "Mount Fuji", some "en", some "Mount Fuji is the highest mountain in Japan.",
          some [], some [⟨some "ref1", some "Geological survey", none⟩]⟩
      else none,
    vtags := fun _ => [],
    aiSummaries := fun _ =>
      [⟨some "An AI-written history.", some "gpt", some 5⟩,
       ⟨some "An older AI-written history.", some "gpt", some 3⟩] }

/-- A database oracle with empty results everywhere. -/
def dbC10 : SqlDB :=
  { nameRows := fun _ _ => [], catCountryRows := fun _ _ _ => [],
    catRows := fun _ _ => [], catCountryCount := fun _ _ => 0,
    tagRows := fun _ _ _ _ => [], execRaw := fun _ _ => .ok [] }

/-! ## Theorems -/

/-! ### C9 — validation is idempotent -/

/-- C9: tag validation is idempotent — re-validating the kept list keeps
everything and drops nothing. -/
theorem C9_validate_idempotent (schema : TagSchema) (l : List String) :
    validate_tags schema ((validate_tags schema l).1) = ((validate_tags schema l).1, []) := by
  unfold validate_tags
  refine Prod.ext ?_ ?_ <;> simp [List.filter_filter]

/-! ### C7 — the all-tags union -/

/-- C7 (counterexample): on a schema whose `countries` set holds
`France`, the tag `France` belongs to the claimed four-set union but not
to `get_all_tags`, and `validate` drops it. -/
theorem C7_counterexample :
    "France" ∈ allowedTagsSpec schemaC7
    ∧ "France" ∉ get_all_tags schemaC7
    ∧ validate_tags schemaC7 ["France"] = ([], ["France"])
    ∧ get_all_tags schemaC7 ≠ allowedTagsSpec schemaC7 := by
  decide

/-- C7 (amended): `all_tags` returns the union of three of the schema's
sets — categories, visual tags and scene tags, countries excluded — and
`validate` keeps exactly the input tags belonging to that three-set
union. -/
theorem C7_all_tags_three_sets (schema : TagSchema) (tags : List String) :
    (∀ t, t ∈ get_all_tags schema ↔
      (t ∈ schema.categories.map Prod.fst ∨ t ∈ schema.visual_tags.map Prod.fst
        ∨ t ∈ schema.scene_tags.map Prod.fst))
    ∧ (validate_tags schema tags).1
        = tags.filter (fun t => decide (t ∈ get_all_tags schema))
    ∧ (∀ t ∈ (validate_tags schema tags).1, t ∈ get_all_tags schema)
    ∧ (∀ t ∈ (validate_tags schema tags).2, t ∉ get_all_tags schema) := by
  refine ⟨fun t => ?_, rfl, fun t ht => ?_, fun t ht => ?_⟩
  · simp [get_all_tags, or_assoc]
  · simpa using (List.mem_filter.mp ht).2
  · simpa using (List.mem_filter.mp ht).2

/-! ### C10 — the agent's `search_by_category` tool call -/

/-- C10 (counterexample): with `top_n = 0` the forwarded value is falsy,
the country filter is skipped, and a candidate envelope is returned
rather than an exception being raised. -/
theorem C10_counterexample :
    execute_tool_search_by_category dbC10 "temple" (some 0)
      = .ok { candidates := [], count := 0, sql := some categoryNoCountrySql,
              params := [SqlParam.s "temple", SqlParam.s "temple", SqlParam.i 50] } := by
  rfl

/-- C10 (amended): for every *non-zero* `top_n` (the default 50
included), `_execute_tool` forwards `top_n` positionally as the `country`
argument of `search_by_category`; the truthy integer reaches
`normalize_country_name`, whose `country.strip()` raises
`AttributeError`, so no candidate envelope is returned. -/
theorem C10_category_tool_raises (db : SqlDB) (category : String)
    (top_n_arg : Option Int) (h : top_n_arg.getD 50 ≠ 0) :
    execute_tool_search_by_category db category top_n_arg = .error .attributeError := by
  unfold execute_tool_search_by_category search_by_category_dyn normalize_country_name_py
  simp [PyVal.truthy, h]

/-- C10 (witness): the amended theorem at the default `top_n` of 50. -/
theorem C10_witness :
    execute_tool_search_by_category dbC10 "lake" none = .error .attributeError :=
  C10_category_tool_raises dbC10 "lake" none (by decide)

/-! ### C3 — the agent's iteration budget -/

/-- C3 (counterexample): with `max_iterations = 1` and a first model
message carrying two tool calls, the loop records two tool calls — more
than `max_iterations` — before returning the `max_iterations_reached`
error. -/
theorem C3_counterexample :
    (answer_query respondC3 execC3 1).tool_calls.length = 2
    ∧ ¬ ((answer_query respondC3 execC3 1).tool_calls.length ≤ 1)
    ∧ (answer_query respondC3 execC3 1).error = some "max_iterations_reached" := by
  decide

/-- Inductive invariant of the agent loop: the log grows by at most `c`
entries per iteration when every model message carries at most `c` tool
calls, the loop either ends without error on a tool-free message (whose
content is the answer) or ends with the `max_iterations_reached` error
when the fuel runs out, and the iteration counter is bounded. -/
theorem agent_loop_bound (respond : Nat → ModelMessage)
    (execTool : String → String → String) (c : Nat)
    (h : ∀ i, (respond i).tool_calls.length ≤ c) :
    ∀ (fuel iteration : Nat) (log : List ToolLogEntry),
      (agent_loop respond execTool fuel iteration log).tool_calls.length
          ≤ log.length + fuel * c
      ∧ ((agent_loop respond execTool fuel iteration log).error = none
         ∨ ((agent_loop respond execTool fuel iteration log).error
              = some "max_iterations_reached"
            ∧ (agent_loop respond execTool fuel iteration log).iterations
              = iteration + fuel))
      ∧ ((agent_loop respond execTool fuel iteration log).error = none →
           (respond ((agent_loop respond execTool fuel iteration log).iterations - 1)).tool_calls
              = []
           ∧ (agent_loop respond execTool fuel iteration log).answer
              = (respond ((agent_loop respond execTool fuel iteration log).iterations - 1)).content
           ∧ iteration + 1 ≤ (agent_loop respond execTool fuel iteration log).iterations
           ∧ (agent_loop respond execTool fuel iteration log).iterations ≤ iteration + fuel) := by
  intro fuel
  induction fuel with
  | zero =>
    intro iteration log
    simp [agent_loop]
  | succ n ih =>
    intro iteration log
    cases hm : (respond iteration).tool_calls with
    | nil =>
      have hgoal : agent_loop respond execTool (n + 1) iteration log
          = ⟨(respond iteration).content, log, iteration + 1, none⟩ := by
        simp [agent_loop, hm]
      rw [hgoal]
      refine ⟨by simp, Or.inl rfl,
        fun _ => ⟨by simpa using hm, rfl, Nat.le_refl _,
          show iteration + 1 ≤ iteration + (n + 1) by omega⟩⟩
    | cons t ts =>
      have hgoal : agent_loop respond execTool (n + 1) iteration log
          = agent_loop respond execTool n (iteration + 1)
              (log ++ (t :: ts).map (fun tc => ⟨tc.name, tc.args, execTool tc.name tc.args⟩)) := by
        simp [agent_loop, hm]
      rw [hgoal]
      obtain ⟨ih1, ih2, ih3⟩ :=
        ih (iteration + 1)
          (log ++ (t :: ts).map
            (fun tc => ToolLogEntry.mk tc.name tc.args (execTool tc.name tc.args)))
      have hc : (t :: ts).length ≤ c := by
        have := h iteration
        rwa [hm] at this
      refine ⟨?_, ?_, ?_⟩
      · calc (agent_loop respond execTool n (iteration + 1)
              (log ++ (t :: ts).map
                (fun tc => ToolLogEntry.mk tc.name tc.args (execTool tc.name tc.args)))).tool_calls.length
            ≤ (log ++ (t :: ts).map
                (fun tc => ToolLogEntry.mk tc.name tc.args (execTool tc.name tc.args))).length + n * c := ih1
          _ = log.length + (t :: ts).length + n * c := by simp
          _ ≤ log.length + c + n * c := by omega
          _ = log.length + (n + 1) * c := by ring
      · rcases ih2 with h2 | ⟨h2, h2i⟩
        · exact Or.inl h2
        · exact Or.inr ⟨h2, by omega⟩
      · intro he
        obtain ⟨h3a, h3b, h3c, h3d⟩ := ih3 he
        exact ⟨h3a, h3b, by omega, by omega⟩

/-- C3 (amended): the agent performs at most `max_iterations` iterations
of the tool loop, and in each iteration it executes and records *every*
tool call of the model message, so the recorded tool calls number at most
`max_iterations · c` when each message carries at most `c`; the loop
terminates when the model returns no tool call — returning that model
message's content with no error — or after `max_iterations` iterations
with `error = "max_iterations_reached"` and the partial log. -/
theorem C3_loop_budget (respond : Nat → ModelMessage)
    (execTool : String → String → String) (m c : Nat)
    (h : ∀ i, (respond i).tool_calls.length ≤ c) :
    (answer_query respond execTool m).tool_calls.length ≤ m * c
    ∧ ((answer_query respond execTool m).error = none
       ∨ ((answer_query respond execTool m).error = some "max_iterations_reached"
          ∧ (answer_query respond execTool m).iterations = m))
    ∧ ((answer_query respond execTool m).error = none →
         (respond ((answer_query respond execTool m).iterations - 1)).tool_calls = []
         ∧ (answer_query respond execTool m).answer
            = (respond ((answer_query respond execTool m).iterations - 1)).content
         ∧ 1 ≤ (answer_query respond execTool m).iterations
         ∧ (answer_query respond execTool m).iterations ≤ m) := by
  have := agent_loop_bound respond execTool c h m 0 []
  simpa [answer_query] using this

/-- C3 (witness): the amended theorem at a model oracle that answers
immediately, with budget 2 and per-message bound 0. -/
theorem C3_witness :
    (answer_query respondC3w execC3 2).tool_calls.length ≤ 2 * 0 :=
  (C3_loop_budget respondC3w execC3 2 0 (fun i => by simp [respondC3w])).1

/-! ### C2 — only keyword-free SELECT statements are executed -/

/-- Prefix monotonicity of `List.isPrefixOf`. -/
theorem isPrefixOf_mono {p q l : List Char} (hpq : p <+: q)
    (h : q.isPrefixOf l = true) : p.isPrefixOf l = true := by
  rw [List.isPrefixOf_iff_prefix] at h ⊢
  exact hpq.trans h

/-- Substring-containment is antitone in the pattern: a string containing
`q` contains every prefix of `q`. -/
theorem listContainsSub_mono {p q : List Char} (hpq : p <+: q) :
    ∀ hay, listContainsSub hay q = true → listContainsSub hay p = true := by
  intro hay
  induction hay with
  | nil =>
    simp only [listContainsSub, List.isEmpty_iff]
    intro hq
    subst hq
    exact List.prefix_nil.mp hpq
  | cons c t ihh =>
    simp only [listContainsSub, Bool.or_eq_true]
    rintro (h | h)
    · exact Or.inl (isPrefixOf_mono hpq h)
    · exact Or.inr (ihh h)

/-- A string containing `EXECUTE` contains `EXEC`. -/
theorem contains_exec_of_contains_execute (s : String)
    (h : pyContains s "EXECUTE" = true) : pyContains s "EXEC" = true :=
  listContainsSub_mono (p := "EXEC".data) (q := "EXECUTE".data) (by decide) s.data h

/-- The source's nine-keyword scan rejects exactly when the claim's
eight-keyword condition rejects (`EXECUTE` contains `EXEC`). -/
theorem forbidden_nine_iff_eight (u : String) :
    (∀ kw ∈ forbidden_keywords, pyContains u kw = false)
      ↔ (∀ kw ∈ forbiddenKeywords8, pyContains u kw = false) := by
  constructor
  · intro h kw hkw
    apply h
    revert hkw
    unfold forbiddenKeywords8 forbidden_keywords
    intro hkw
    simp only [List.mem_cons, List.not_mem_nil, or_false] at hkw ⊢
    tauto
  · intro h kw hkw
    unfold forbidden_keywords at hkw
    simp only [List.mem_cons, List.not_mem_nil, or_false] at hkw
    rcases hkw with h1 | h1 | h1 | h1 | h1 | h1 | h1 | h1 | h1 <;> subst h1
    · exact h "INSERT" (by decide)
    · exact h "UPDATE" (by decide)
    · exact h "DELETE" (by decide)
    · exact h "DROP" (by decide)
    · exact h "CREATE" (by decide)
    · exact h "ALTER" (by decide)
    · exact h "TRUNCATE" (by decide)
    · exact h "EXEC" (by decide)
    · -- `EXECUTE`: not containing `EXEC` implies not containing `EXECUTE`
      have h8 := h "EXEC" (by decide)
      cases hE : pyContains u "EXECUTE"
      · rfl
      · rw [contains_exec_of_contains_execute u hE] at h8
        cases h8

/-- On success `validateLlmSql` returns the fence-stripped string. -/
theorem validateLlmSql_ok_eq {raw sql : String}
    (h : validateLlmSql raw = .ok sql) : sql = stripSqlFences raw := by
  unfold validateLlmSql at h
  dsimp only at h
  split at h
  · cases h
  · split at h
    · cases h
    · cases h
      rfl

/-- C2: an LLM-generated SQL string is, after fence stripping, rejected
exactly unless its uppercased form begins with `SELECT` and contains none
of the eight forbidden keywords; consequently whenever
`_generate_sql_with_llm` hands a query on for execution, that query is a
`SELECT` statement free of forbidden keywords. -/
theorem C2_generated_sql_select_only (raw : String) (intent : QueryIntent)
    (top_n : Int) :
    ((validateLlmSql raw).isOk = true ↔ sqlAllowedSpec (stripSqlFences raw) = true)
    ∧ (∀ sql params, generate_sql_with_llm raw intent top_n = .ok (sql, params) →
        sql = stripSqlFences raw ∧ sqlAllowedSpec sql = true) := by
  have hmain : (validateLlmSql raw).isOk = true
      ↔ sqlAllowedSpec (stripSqlFences raw) = true := by
    unfold validateLlmSql sqlAllowedSpec
    cases hsw : pyStartsWith (pyStrip (pyUpper (stripSqlFences raw))) "SELECT"
    · simp [hsw, Except.isOk, Except.toBool]
    · cases hf : List.find? (fun kw => pyContains (pyStrip (pyUpper (stripSqlFences raw))) kw)
          forbidden_keywords with
      | none =>
        simp [hsw, hf, Except.isOk, Except.toBool]
        rw [List.find?_eq_none] at hf
        exact (forbidden_nine_iff_eight _).mp (fun k hk => by simpa using hf k hk)
      | some kw =>
        simp [hsw, hf, Except.isOk, Except.toBool]
        have hmem := List.mem_of_find?_eq_some hf
        have hcont : pyContains (pyStrip (pyUpper (stripSqlFences raw))) kw = true :=
          List.find?_some hf
        by_contra hno
        push_neg at hno
        have h8 : ∀ k ∈ forbiddenKeywords8,
            pyContains (pyStrip (pyUpper (stripSqlFences raw))) k = false := by
          intro k hk
          have := hno k hk
          simpa using this
        have h9 := (forbidden_nine_iff_eight _).mpr h8 kw hmem
        rw [hcont] at h9
        cases h9
  refine ⟨hmain, fun sql params h => ?_⟩
  unfold generate_sql_with_llm at h
  cases hv : validateLlmSql raw with
  | error e => rw [hv] at h; cases h
  | ok s =>
    rw [hv] at h
    cases h
    have hs := validateLlmSql_ok_eq hv
    subst hs
    refine ⟨rfl, ?_⟩
    rw [← hmain, hv]
    rfl

/-- C2 (witness): the theorem applied to a fenced `SELECT` statement. -/
theorem C2_witness :
    "SELECT viewpoint_id FROM viewpoint_entity LIMIT %s"
        = stripSqlFences "```sql\nSELECT viewpoint_id FROM viewpoint_entity LIMIT %s\n```"
    ∧ sqlAllowedSpec "SELECT viewpoint_id FROM viewpoint_entity LIMIT %s" = true :=
  (C2_generated_sql_select_only
      "```sql\nSELECT viewpoint_id FROM viewpoint_entity LIMIT %s\n```" intentTrivial 50).2
    "SELECT viewpoint_id FROM viewpoint_entity LIMIT %s"
    [SqlParam.i 50] (by rfl)

/-! ### C1 — placeholder/parameter reconciliation -/

/-- The repaired parameter list always matches the placeholder count. -/
theorem adjustParams_length (p : List SqlParam) (n : Nat) (t : Int) :
    (adjustParams p n t).length = n := by
  unfold adjustParams
  split
  · simp only [List.length_append, List.length_replicate]
    omega
  · split
    · split
      · simp only [List.length_append, List.length_take, List.length_cons, List.length_nil]
        omega
      · simp only [List.length_take]
        omega
    · omega

/-- A validated SQL string starts with `SELECT` (uppercased, stripped). -/
theorem validateLlmSql_ok_startsWith {raw sql : String}
    (h : validateLlmSql raw = .ok sql) :
    pyStartsWith (pyStrip (pyUpper sql)) "SELECT" = true := by
  have he := validateLlmSql_ok_eq h
  subst he
  unfold validateLlmSql at h
  dsimp only at h
  by_cases hb : pyStartsWith (pyStrip (pyUpper (stripSqlFences raw))) "SELECT" = true
  · exact hb
  · rw [if_pos hb] at h
    cases h

/-- C1 (amended): when the LLM-generated SQL passes validation, the
materialised parameter list is padded with `None` or trimmed (keeping the
trailing limit when possible) until its length equals the `%s`
placeholder count, and the query is then *executed* with that adjusted
list — a count mismatch never refuses execution; the deterministic
fallback runs only when execution raises or returns no candidates. -/
theorem C1_llm_sql_repair (intent : QueryIntent) (top_n : Int) (raw sql : String)
    (params : List SqlParam)
    (h : generate_sql_with_llm raw intent top_n = .ok (sql, params)) :
    params.length = countPlaceholders sql
    ∧ params = adjustParams (materializeParams intent top_n) (countPlaceholders sql) top_n
    ∧ ∀ (db : SqlDB) (rows : List RawRow),
        db.execRaw sql params = .ok rows → rows ≠ [] →
        search_with_llm_sql db intent top_n raw =
          { candidates := rows.map RawRow.toCandidate,
            count := (rows.map RawRow.toCandidate).length,
            sql := some sql, params := params, generated_by := some "llm" } := by
  have hgen := h
  unfold generate_sql_with_llm at h
  cases hv : validateLlmSql raw with
  | error e => rw [hv] at h; cases h
  | ok s =>
    rw [hv] at h
    dsimp only at h
    obtain ⟨hs, hp⟩ : s = sql ∧
        adjustParams (materializeParams intent top_n) (countPlaceholders s) top_n = params := by
      simpa [Prod.ext_iff] using h
    subst hs
    refine ⟨?_, hp.symm, ?_⟩
    · rw [← hp]
      exact adjustParams_length _ _ _
    · intro db rows hex hne
      have hsw := validateLlmSql_ok_startsWith hv
      unfold search_with_llm_sql
      rw [hgen]
      dsimp only
      unfold validate_and_execute_sql
      dsimp only
      rw [if_neg (by simp [hsw])]
      rw [hex]
      dsimp only
      rw [if_neg (by simp [List.length_eq_zero, hne])]

/-- C1 (counterexample): a validated LLM statement with zero `%s`
placeholders against a materialised list of two parameters is still
executed (the list is trimmed to match), with the envelope marked
`generated_by = "llm"` — execution is not refused and the fallback does
not run. -/
theorem C1_counterexample :
    countPlaceholders (stripSqlFences rawC1) = 0
    ∧ (materializeParams intentC1 50).length = 2
    ∧ search_with_llm_sql dbC1 intentC1 50 rawC1 =
        { candidates := [⟨1, "Mount Fuji", [], some "mountain", 1, 1, 1, 9/10⟩],
          count := 1, sql := some rawC1, params := [], generated_by := some "llm" } := by
  refine ⟨by decide, by decide, by rfl⟩

/-- C1 (witness): the amended theorem at a validated statement whose two
placeholders meet the two materialised parameters. -/
theorem C1_witness :
    ([SqlParam.s "%Fuji%", SqlParam.i 50] : List SqlParam).length
      = countPlaceholders rawC1w :=
  (C1_llm_sql_repair intentC1 50 rawC1w rawC1w
    [SqlParam.s "%Fuji%", SqlParam.i 50] (by rfl)).1


/-! ### Properties of the stable descending sort -/

/-- `pySortDescBy` permutes its input. -/
theorem pySortDescBy_perm {α β : Type*} [LinearOrder β] (κ : α → β) (l : List α) :
    (pySortDescBy κ l).Perm l :=
  List.perm_insertionSort _ l

/-- `pySortDescBy` sorts by descending key. -/
theorem pySortDescBy_sorted {α β : Type*} [LinearOrder β] (κ : α → β) (l : List α) :
    List.Sorted (fun a b => κ b ≤ κ a) (pySortDescBy κ l) := by
  haveI : IsTotal α (fun a b => κ b ≤ κ a) := ⟨fun a b => (le_total (κ b) (κ a)).imp id id⟩
  haveI : IsTrans α (fun a b => κ b ≤ κ a) := ⟨fun _ _ _ hab hbc => le_trans hbc hab⟩
  exact List.sorted_insertionSort _ l

/-- Inserting `x` keeps the sublist of any fixed key equal to prepending
`x`: the elements passed over all have strictly greater keys. -/
theorem filter_key_orderedInsert {α β : Type*} [LinearOrder β] (κ : α → β)
    (q : β) (x : α) (l : List α) :
    (List.orderedInsert (fun a b => κ b ≤ κ a) x l).filter (fun y => decide (κ y = q))
      = (x :: l).filter (fun y => decide (κ y = q)) := by
  induction l with
  | nil => rfl
  | cons y ys ih =>
    by_cases hxy : κ y ≤ κ x
    · simp only [List.orderedInsert, if_pos hxy]
    · have hlt : κ x < κ y := lt_of_not_le hxy
      simp only [List.orderedInsert, if_neg hxy]
      by_cases hy : κ y = q
      · have hx : ¬ κ x = q := by
          rintro rfl
          exact absurd hy (ne_of_gt hlt)
        simp [List.filter_cons, hy, hx, ih]
      · simp [List.filter_cons, hy, ih]

/-- Stability of `pySortDescBy`: for every key value, the elements
carrying that key appear in the sorted list exactly as they appear in the
input. -/
theorem filter_key_pySortDescBy {α β : Type*} [LinearOrder β] (κ : α → β)
    (q : β) (l : List α) :
    (pySortDescBy κ l).filter (fun y => decide (κ y = q))
      = l.filter (fun y => decide (κ y = q)) := by
  induction l with
  | nil => rfl
  | cons x xs ih =>
    show (List.orderedInsert _ x (pySortDescBy κ xs)).filter _ = _
    rw [filter_key_orderedInsert]
    rw [List.filter_cons, List.filter_cons, ih]

/-- The head of the descending sort carries a maximal key. -/
theorem pySortDescBy_head_max {α β : Type*} [LinearOrder β] (κ : α → β)
    (l : List α) (x : α) (hx : (pySortDescBy κ l).head? = some x) :
    ∀ y ∈ l, κ y ≤ κ x := by
  intro y hy
  have hmem : y ∈ pySortDescBy κ l := (List.mem_insertionSort _).mpr hy
  obtain ⟨t, ht⟩ : ∃ t, pySortDescBy κ l = x :: t := by
    cases hsort : pySortDescBy κ l with
    | nil => rw [hsort] at hx; cases hx
    | cons a t =>
      rw [hsort] at hx
      cases hx
      exact ⟨t, rfl⟩
  rw [ht] at hmem
  rcases List.mem_cons.mp hmem with rfl | hmem2
  · exact le_refl _
  · have hs := pySortDescBy_sorted κ l
    rw [ht] at hs
    exact List.rel_of_sorted_cons hs y hmem2

/-! ### C8 — historical summary provenance -/

/-- Every evidence entry of the AI-summary fallback has source
`ai_summary`. -/
theorem aiSummaryFallback_sources (edb : EnrichDB) (vid : Int) :
    ∀ e ∈ (aiSummaryFallback edb vid).2, e.source = "ai_summary" := by
  unfold aiSummaryFallback
  cases hrow : queryLatestAiSummary edb vid with
  | none => simp
  | some row =>
    dsimp only
    cases hsum : row.history_summary with
    | none => simp
    | some s =>
      dsimp only
      by_cases hs : s = ""
      · simp [hs]
      · rw [if_pos hs]
        intro e he
        simp only [List.mem_singleton] at he
        subst he
        rfl

/-- C8: `get_historical_summary` returns the encyclopedia extract with
one `wikipedia` evidence entry and one `wikipedia_citation` entry per
citation whenever a wiki row with a non-empty extract exists; otherwise
it falls back to the AI summary row with maximal `updated_at`, yielding a
single `ai_summary` evidence entry; hence every historical evidence entry
has source in {wikipedia, wikipedia_citation, ai_summary}. -/
theorem C8_historical_sources (edb : EnrichDB) (vid : Int) :
    (∀ e ∈ (get_historical_summary edb vid).2,
       e.source = "wikipedia" ∨ e.source = "wikipedia_citation" ∨ e.source = "ai_summary")
    ∧ (∀ w s, edb.wiki vid = some w → w.extract_text = some s → s ≠ "" →
        get_historical_summary edb vid =
          (some s, ⟨"wikipedia", w.wikipedia_title.getD "", some (truncate200 s)⟩ ::
            (w.citations.getD []).map (fun c =>
              ⟨"wikipedia_citation", c.ref.getD "", some (c.text.getD "")⟩)))
    ∧ ((∀ w, edb.wiki vid = some w → ∀ s, w.extract_text = some s → s = "") →
        get_historical_summary edb vid = aiSummaryFallback edb vid)
    ∧ (∀ row s, queryLatestAiSummary edb vid = some row → row.history_summary = some s →
        s ≠ "" →
        aiSummaryFallback edb vid =
          (some s, [⟨"ai_summary", orDefaultStr row.source "viewpoint_ai_summaries",
                     some (truncate200 s)⟩])
        ∧ ∀ r ∈ edb.aiSummaries vid, aiKey r ≤ aiKey row) := by
  refine ⟨?_, ?_, ?_, ?_⟩
  · -- provenance of every evidence entry
    unfold get_historical_summary
    cases hw : enrich_wikipedia edb vid with
    | none =>
      intro e he
      exact Or.inr (Or.inr (aiSummaryFallback_sources edb vid e he))
    | some w =>
      dsimp only
      cases hx : w.extract with
      | none =>
        intro e he
        exact Or.inr (Or.inr (aiSummaryFallback_sources edb vid e he))
      | some summary =>
        dsimp only
        by_cases hs : summary ≠ ""
        · rw [if_pos hs]
          intro e he
          rcases List.mem_cons.mp he with rfl | he2
          · exact Or.inl rfl
          · obtain ⟨c, _, rfl⟩ := List.mem_map.mp he2
            exact Or.inr (Or.inl rfl)
        · rw [if_neg hs]
          intro e he
          exact Or.inr (Or.inr (aiSummaryFallback_sources edb vid e he))
  · intro w s hw hx hs
    unfold get_historical_summary
    rw [show enrich_wikipedia edb vid
        = some ⟨w.wikipedia_title, w.wikipedia_lang, w.extract_text,
            w.sections.getD [], w.citations.getD []⟩ by
      unfold enrich_wikipedia; rw [hw]; rfl]
    dsimp only
    rw [hx]
    dsimp only
    rw [if_pos hs]
  · intro hnone
    unfold get_historical_summary
    cases hw : enrich_wikipedia edb vid with
    | none => rfl
    | some w =>
      unfold enrich_wikipedia at hw
      cases hwik : edb.wiki vid with
      | none => rw [hwik] at hw; cases hw
      | some wr =>
        rw [hwik] at hw
        rw [Option.map_some'] at hw
        cases hw
        dsimp only
        cases hx : wr.extract_text with
        | none => rfl
        | some s =>
          have hse : s = "" := hnone wr hwik s hx
          subst hse
          simp
  · intro row s hrow hsum hs
    constructor
    · unfold aiSummaryFallback
      rw [hrow]
      dsimp only
      rw [hsum]
      dsimp only
      rw [if_pos hs]
    · intro r hr
      exact pySortDescBy_head_max aiKey (edb.aiSummaries vid) row hrow r hr

/-- C8 (witness): the wikipedia branch of the theorem at a concrete
enrichment oracle. -/
theorem C8_witness :
    get_historical_summary edbC8 1 =
      (some "Mount Fuji is the highest mountain in Japan.",
       [⟨"wikipedia", "Mount Fuji", some "Mount Fuji is the highest mountain in Japan."⟩,
        ⟨"wikipedia_citation", "ref1", some "Geological survey"⟩]) :=
  (C8_historical_sources edbC8 1).2.1
    ⟨some "Mount Fuji", some "en", some "Mount Fuji is the highest mountain in Japan.",
     some [], some [⟨some "ref1", some "Geological survey", none⟩]⟩
    "Mount Fuji is the highest mountain in Japan." rfl rfl (by decide)


/-! ### C6 — ranking window, truncation, stable descending order -/

/-- C6: `rank_and_fuse` builds its results from exactly the first
`2·top_k` candidates, returns at most `top_k` results, sorted by
descending `match_confidence`, and the sort is stable: the results of any
fixed confidence appear in candidate order (as a prefix of that
confidence class of the processed list). -/
theorem C6_rank_order (edb : EnrichDB) (intent : QueryIntent) (k : Nat)
    (cands : List Candidate) :
    rank_and_fuse edb intent k cands = rank_and_fuse edb intent k (cands.take (k * 2))
    ∧ (rank_and_fuse edb intent k cands).length ≤ k
    ∧ List.Sorted (fun a b => b.match_confidence ≤ a.match_confidence)
        (rank_and_fuse edb intent k cands)
    ∧ ∀ q : ℚ,
        (rank_and_fuse edb intent k cands).filter
            (fun r => decide (r.match_confidence = q))
          <+: ((cands.take (k * 2)).map (process_candidate edb intent)).filter
            (fun r => decide (r.match_confidence = q)) := by
  refine ⟨?_, ?_, ?_, ?_⟩
  · unfold rank_and_fuse
    rw [List.take_take]
    simp
  · unfold rank_and_fuse
    exact List.length_take_le _ _
  · unfold rank_and_fuse
    exact List.Pairwise.sublist (List.take_sublist _ _)
      (pySortDescBy_sorted (fun r : ViewpointResult => r.match_confidence)
        ((cands.take (k * 2)).map (process_candidate edb intent)))
  · intro q
    unfold rank_and_fuse
    have h1 := List.IsPrefix.filter (fun r => decide (r.match_confidence = q))
      (List.take_prefix k
        (pySortDescBy (fun r => r.match_confidence)
          ((cands.take (k * 2)).map (process_candidate edb intent))))
    rwa [filter_key_pySortDescBy (fun r : ViewpointResult => r.match_confidence) q
      ((cands.take (k * 2)).map (process_candidate edb intent))] at h1

/-! ### C5 — the match-confidence formula -/

/-- The season-bonus fold selects exactly the season-matching records. -/
theorem foldl_if_max (hint : String) :
    ∀ (L : List VTagPayload) (b : ℚ),
      L.foldl (fun b v => if v.season = hint then max b v.confidence else b) b
        = ((L.filter (fun v => decide (v.season = hint))).map VTagPayload.confidence).foldl
            max b := by
  intro L
  induction L with
  | nil => intro b; rfl
  | cons v vs ih =>
    intro b
    by_cases hv : v.season = hint <;> simp [List.filter_cons, hv, ih]

/-- A fold of `max` from `0` over non-negative rationals is the maximum
(`0` on the empty list). -/
theorem foldl_max_eq_max? (l : List ℚ) (h : ∀ x ∈ l, 0 ≤ x) :
    l.foldl max 0 = (l.max?).getD 0 := by
  cases l with
  | nil => rfl
  | cons x xs =>
    have hx : max 0 x = x := max_eq_right (h x (by simp))
    show xs.foldl max (max 0 x) = _
    rw [hx]
    rfl

/-- The confidences of the season-matching enriched records are the
confidences of the season-matching table rows: the enrichment filter
(match or `unknown`) is absorbed by the season-equality filter. -/
theorem vtags_filter_season (edb : EnrichDB) (vid : Int) (hint : String) :
    ((enrich_visual_tags edb vid (some hint)).filter
        (fun v => decide (v.season = hint))).map VTagPayload.confidence
      = (((edb.vtags vid).filter
          (fun r => decide (r.season = hint))).map VTagRow.confidence) := by
  unfold enrich_visual_tags
  by_cases htr : truthyOptStr (some hint) = true ∧ some hint ≠ some "unknown"
  · rw [if_pos htr]
    rw [List.filter_map, List.filter_filter, List.map_map]
    have : ∀ r : VTagRow, r ∈ edb.vtags vid →
        (((fun v : VTagPayload => decide (v.season = hint)) ∘
            (fun r : VTagRow =>
              (⟨r.season, r.tags.getD [], r.confidence, r.evidence.getD ⟨none, none, none⟩,
                r.tag_source⟩ : VTagPayload))) r
          && decide (r.season = (some hint).getD "" ∨ r.season = "unknown"))
        = decide (r.season = hint) := by
      intro r _
      by_cases hr : r.season = hint <;> simp [hr]
    rw [List.filter_congr this]
    rfl
  · rw [if_neg htr]
    rw [List.filter_map, List.map_map]
    rfl

/-- C5: every result `rank_and_fuse` produces comes from a processed
candidate, and its `match_confidence` is
`0.4·name + 0.2·category + 0.3·tag_overlap + 0.1·season_bonus` with the
overlap and bonus as the claim defines them (confidences are non-negative
per the data-model invariant). -/
theorem C5_match_confidence (edb : EnrichDB) (intent : QueryIntent) (k : Nat)
    (cands : List Candidate)
    (hconf : ∀ vid r, r ∈ edb.vtags vid → 0 ≤ r.confidence) :
    ∀ r ∈ rank_and_fuse edb intent k cands, ∃ c ∈ cands,
      r = process_candidate edb intent c
      ∧ r.match_confidence =
          0.4 * c.name_score + 0.2 * c.category_score
            + 0.3 * tagOverlapSpec edb intent c + 0.1 * seasonBonusSpec edb intent c := by
  intro r hr
  have hr2 : r ∈ pySortDescBy (fun x : ViewpointResult => x.match_confidence)
      ((cands.take (k * 2)).map (process_candidate edb intent)) :=
    List.mem_of_mem_take hr
  have hr3 : r ∈ (cands.take (k * 2)).map (process_candidate edb intent) :=
    ((pySortDescBy_perm _ _).mem_iff).mp hr2
  obtain ⟨c, hc, rfl⟩ := List.mem_map.mp hr3
  refine ⟨c, List.mem_of_mem_take hc, rfl, ?_⟩
  have hrfl : (process_candidate edb intent c).match_confidence
      = c.name_score * 0.4 + c.category_score * 0.2
        + (if (intent.query_tags.toFinset : Finset String) ≠ ∅ then
            ((((enrich_visual_tags edb c.viewpoint_id (some intent.season_hint)).foldl
                (fun s v => s ∪ v.tags.toFinset) ∅ ∩ intent.query_tags.toFinset).card : ℚ)
              / (intent.query_tags.toFinset.card : ℚ)) else 0) * 0.3
        + (if intent.season_hint ≠ "unknown" then
            (enrich_visual_tags edb c.viewpoint_id (some intent.season_hint)).foldl
              (fun b v => if v.season = intent.season_hint then max b v.confidence else b) 0
           else 0) * 0.1 := rfl
  rw [hrfl]
  have hov : (if (intent.query_tags.toFinset : Finset String) ≠ ∅ then
      ((((enrich_visual_tags edb c.viewpoint_id (some intent.season_hint)).foldl
          (fun s v => s ∪ v.tags.toFinset) ∅ ∩ intent.query_tags.toFinset).card : ℚ)
        / (intent.query_tags.toFinset.card : ℚ)) else 0)
      = tagOverlapSpec edb intent c := by
    unfold tagOverlapSpec candidateTagsOf
    by_cases hq : (intent.query_tags.toFinset : Finset String) = ∅ <;> simp [hq]
  have hbon : (if intent.season_hint ≠ "unknown" then
      (enrich_visual_tags edb c.viewpoint_id (some intent.season_hint)).foldl
        (fun b v => if v.season = intent.season_hint then max b v.confidence else b) 0
     else 0) = seasonBonusSpec edb intent c := by
    unfold seasonBonusSpec
    by_cases hu : intent.season_hint = "unknown"
    · simp [hu]
    · rw [if_pos hu, if_neg hu]
      rw [foldl_if_max, vtags_filter_season]
      apply foldl_max_eq_max?
      intro x hx
      obtain ⟨rr, hrr, rfl⟩ := List.mem_map.mp hx
      exact hconf c.viewpoint_id rr (List.mem_of_mem_filter hrr)
  rw [hov, hbon]
  ring

/-- C5 (witness): the theorem at a one-candidate list over a concrete
enrichment oracle. -/
theorem C5_witness :
    ∃ c ∈ [candC5], process_candidate edbC5 intentC5 candC5 = process_candidate edbC5 intentC5 c
      ∧ (process_candidate edbC5 intentC5 candC5).match_confidence =
          0.4 * c.name_score + 0.2 * c.category_score
            + 0.3 * tagOverlapSpec edbC5 intentC5 c + 0.1 * seasonBonusSpec edbC5 intentC5 c :=
  C5_match_confidence edbC5 intentC5 1 [candC5]
    (fun vid r hr => by
      simp only [edbC5, List.mem_singleton] at hr
      subst hr
      norm_num)
    (process_candidate edbC5 intentC5 candC5)
    (by
      rw [show rank_and_fuse edbC5 intentC5 1 [candC5]
          = [process_candidate edbC5 intentC5 candC5] from rfl]
      exact List.mem_singleton.mpr rfl)


/-! ### C4 — the deterministic fallback cascade -/

/-- `partialNameTry` is the first stage-five attempt with a non-empty
result. -/
theorem partialNameTry_eq_find? (db : SqlDB) (top_n : Int) :
    ∀ names, partialNameTry db top_n names
      = List.find? (fun e => decide (e.count > 0)) (partialNameStages db top_n names) := by
  intro names
  induction names with
  | nil => rfl
  | cons name rest ih =>
    unfold partialNameTry partialNameStages
    by_cases hlen : name.length > 2
    · rw [if_pos hlen, if_pos hlen]
      by_cases hc : (search_by_name db
          (if name.length > 4 then (⟨name.data.take (name.length / 2)⟩ : String) else name)
          top_n).count > 0
      · simp [List.find?_cons, hc]
      · simp [List.find?_cons, hc, ih]
    · rw [if_neg hlen, if_neg hlen]
      exact ih

/-- C4 (amended): `_fallback_search` tries, in this order, (1) name
search on the first name candidate, (2) category search with country
filter, (3) category search without country filter, (4) tag search with
season, (5) partial-name search per candidate — each stage only when its
inputs exist — and returns the first non-empty envelope, or the empty
last-resort envelope when every attempted stage is empty.  (The claim's
further conjunct — that the request mediator runs this same cascade — is
refuted by `C4_counterexample`.) -/
theorem C4_fallback_cascade (db : SqlDB) (intent : QueryIntent) (top_n : Int) :
    fallback_search db intent top_n
      = ((cascadeStages db intent top_n).find? (fun e => decide (e.count > 0))).getD
          fallbackEmptyEnvelope := by
  have hglue : ∀ (o : Option Envelope) (e : Envelope),
      (match o with | some r => r | none => e) = o.getD e := by
    intro o e
    cases o <;> rfl
  unfold fallback_search cascadeStages
  rw [List.find?_append, List.find?_append, List.find?_append,
    partialNameTry_eq_find? db top_n intent.name_candidates]
  cases hnc : intent.name_candidates <;>
    cases hcat : List.filter (fun t => validCategories.contains t) intent.query_tags <;>
    cases hvt : List.filter (fun t => ¬ validCategories.contains t) intent.query_tags <;>
    dsimp only <;>
    (try split_ifs) <;>
    simp_all only [List.find?_cons, List.find?_nil, List.singleton_append, List.nil_append,
      Option.none_or, Option.or_none, Option.getD_some, Option.getD_none,
      decide_True, decide_False, decide_eq_true_eq] <;>
    (try rfl)

/-- C4 (counterexample): on an intent carrying only a category tag, the
cascade's stage (3) returns the stored `temple` candidate, but the
request mediator's own fallback — a different three-stage sequence — hits
its tag-search call, whose unexpected `tag_sources=` keyword raises
`TypeError`: the mediator does not run the claimed cascade. -/
theorem C4_counterexample :
    mediator_fallback dbC4 edbEmpty intentC4 5 = .error .typeError
    ∧ fallback_search dbC4 intentC4 50 =
        { candidates := [⟨7, "Kinkaku-ji", [], some "temple", 0, 1, 1, 1⟩], count := 1,
          sql := some categoryNoCountrySql,
          params := [SqlParam.s "temple", SqlParam.s "temple", SqlParam.i 50] } := by
  exact ⟨rfl, rfl⟩


end TourRAG
